import Mathlib

/-!
Verification of the ACDEI bootstrap layer (configuration manager and
connection manager) against its specification.

The two Python modules `src/config.py` and `src/firebase_setup.py` are
shallowly embedded below.  Python floats are embedded as rationals,
Python ints as `Int`, JSON-decoded credential blobs as an abstract
key-value document type, and the process environment / file system as
explicit function arguments.  Exceptions that the source raises and
catches are embedded with `Except` / `Option` results.
-/

/-- Firebase Firestore configuration section with its dataclass defaults
(src/config.py lines 28-35). -/
structure DatabaseConfig where
  project_id : String := "acdei-system"
  credentials_path : Option String := none
  collection_prefix : String := "acdei_"
  timeout_seconds : Int := 30
  max_retries : Int := 3
  deriving DecidableEq

/-- Data processing configuration section with its dataclass defaults
(src/config.py lines 37-45).  Float fields are rationals. -/
structure ProcessingConfig where
  batch_size : Int := 1000
  max_workers : Int := 4
  chunk_size : Int := 100
  default_sample_size : Int := 10000
  similarity_threshold : ℚ := 7 / 10
  correlation_threshold : ℚ := 3 / 10
  deriving DecidableEq

/-- Knowledge graph configuration section with its dataclass defaults
(src/config.py lines 47-53). -/
structure GraphConfig where
  min_node_degree : Int := 2
  max_cluster_size : Int := 50
  prune_threshold : ℚ := 1 / 10
  community_resolution : ℚ := 1
  deriving DecidableEq

/-- The triple of configuration sections owned by ConfigManager
(fields db_config, proc_config, graph_config of src/config.py). -/
structure ConfigBundle where
  db_config : DatabaseConfig := {}
  proc_config : ProcessingConfig := {}
  graph_config : GraphConfig := {}
  deriving DecidableEq

/-- The bundle holding the documented defaults of all three sections,
as built by ConfigManager.__init__ before loading (src/config.py lines 63-65). -/
def defaultBundle : ConfigBundle := {}

/-- ConfigManager._validate_configs (src/config.py lines 101-116): a chain of
assert statements, each raising AssertionError with its message at the first
violated condition.  Embedded as an Except-valued check. -/
def ConfigManager.validate_configs (b : ConfigBundle) : Except String Unit :=
  if ¬ (0 < b.db_config.timeout_seconds) then .error "Timeout must be positive"
  else if ¬ (0 ≤ b.db_config.max_retries) then .error "Max retries must be non-negative"
  else if ¬ (0 < b.proc_config.similarity_threshold ∧ b.proc_config.similarity_threshold ≤ 1) then
    .error "Similarity threshold must be in (0,1]"
  else if ¬ (-1 ≤ b.proc_config.correlation_threshold ∧ b.proc_config.correlation_threshold ≤ 1) then
    .error "Correlation threshold must be in [-1,1]"
  else if ¬ (0 < b.proc_config.batch_size) then .error "Batch size must be positive"
  else if ¬ (0 ≤ b.graph_config.min_node_degree) then .error "Min node degree must be non-negative"
  else if ¬ (0 < b.graph_config.max_cluster_size) then .error "Max cluster size must be positive"
  else .ok ()

/-- The validation invariants as the spec lists them (§3 and §4.1 Validate):
the fixed order of checks, each paired with the message identifying the field
and the violated constraint. -/
def validationChecks (b : ConfigBundle) : List (Bool × String) :=
  [ (decide (0 < b.db_config.timeout_seconds), "Timeout must be positive"),
    (decide (0 ≤ b.db_config.max_retries), "Max retries must be non-negative"),
    (decide (0 < b.proc_config.similarity_threshold ∧ b.proc_config.similarity_threshold ≤ 1),
      "Similarity threshold must be in (0,1]"),
    (decide (-1 ≤ b.proc_config.correlation_threshold ∧ b.proc_config.correlation_threshold ≤ 1),
      "Correlation threshold must be in [-1,1]"),
    (decide (0 < b.proc_config.batch_size), "Batch size must be positive"),
    (decide (0 ≤ b.graph_config.min_node_degree), "Min node degree must be non-negative"),
    (decide (0 < b.graph_config.max_cluster_size), "Max cluster size must be positive") ]

/-- First failed check of a check list, in list order (fail-fast semantics). -/
def firstFailure : List (Bool × String) → Option String
  | [] => none
  | (ok, msg) :: rest => if ok then firstFailure rest else some msg

/-- A default bundle with only the similarity threshold replaced. -/
def bundleWithSimilarity (q : ℚ) : ConfigBundle :=
  { proc_config := { similarity_threshold := q } }

/-- A default bundle with only the correlation threshold replaced. -/
def bundleWithCorrelation (q : ℚ) : ConfigBundle :=
  { proc_config := { correlation_threshold := q } }

/-- C5: _validate_configs checks the invariants in the fixed order of the spec
and raises at the first violated one, with the message identifying the field
and constraint, checking nothing past it: it coincides with the first failure
of the ordered check list. -/
theorem validate_configs_is_first_failure (b : ConfigBundle) :
    ConfigManager.validate_configs b =
      (match firstFailure (validationChecks b) with
       | none => Except.ok ()
       | some msg => Except.error msg) := by
  unfold ConfigManager.validate_configs validationChecks
  by_cases h1 : 0 < b.db_config.timeout_seconds <;>
  by_cases h2 : 0 ≤ b.db_config.max_retries <;>
  by_cases h3 : 0 < b.proc_config.similarity_threshold ∧ b.proc_config.similarity_threshold ≤ 1 <;>
  by_cases h4 : -1 ≤ b.proc_config.correlation_threshold ∧ b.proc_config.correlation_threshold ≤ 1 <;>
  by_cases h5 : 0 < b.proc_config.batch_size <;>
  by_cases h6 : 0 ≤ b.graph_config.min_node_degree <;>
  by_cases h7 : 0 < b.graph_config.max_cluster_size <;>
  simp [firstFailure, h1, h2, h3, h4, h5, h6, h7]

/-- C6: validation rejects similarity thresholds 0 and 1.5 and accepts 1.0 and
0.0001; it rejects correlation thresholds 1.5 and -1.5 and accepts 1.0, -1.0
and 0.0. -/
theorem threshold_boundary_values :
    ConfigManager.validate_configs (bundleWithSimilarity 0) =
      .error "Similarity threshold must be in (0,1]" ∧
    ConfigManager.validate_configs (bundleWithSimilarity (3 / 2)) =
      .error "Similarity threshold must be in (0,1]" ∧
    ConfigManager.validate_configs (bundleWithSimilarity 1) = .ok () ∧
    ConfigManager.validate_configs (bundleWithSimilarity (1 / 10000)) = .ok () ∧
    ConfigManager.validate_configs (bundleWithCorrelation (3 / 2)) =
      .error "Correlation threshold must be in [-1,1]" ∧
    ConfigManager.validate_configs (bundleWithCorrelation (-(3 / 2))) =
      .error "Correlation threshold must be in [-1,1]" ∧
    ConfigManager.validate_configs (bundleWithCorrelation 1) = .ok () ∧
    ConfigManager.validate_configs (bundleWithCorrelation (-1)) = .ok () ∧
    ConfigManager.validate_configs (bundleWithCorrelation 0) = .ok () := by
  refine ⟨?_, ?_, ?_, ?_, ?_, ?_, ?_, ?_, ?_⟩ <;>
  norm_num [ConfigManager.validate_configs, bundleWithSimilarity, bundleWithCorrelation]

/-- Keyword arguments for DatabaseConfig(**section): the keys present in the
file's `database` object, each with its decoded value, plus any keys that are
not fields of the dataclass. -/
structure DatabaseKwargs where
  project_id : Option String := none
  credentials_path : Option (Option String) := none
  collection_prefix : Option String := none
  timeout_seconds : Option Int := none
  max_retries : Option Int := none
  unknown_keys : List String := []
  deriving DecidableEq

/-- Keyword arguments for ProcessingConfig(**section). -/
structure ProcessingKwargs where
  batch_size : Option Int := none
  max_workers : Option Int := none
  chunk_size : Option Int := none
  default_sample_size : Option Int := none
  similarity_threshold : Option ℚ := none
  correlation_threshold : Option ℚ := none
  unknown_keys : List String := []
  deriving DecidableEq

/-- Keyword arguments for GraphConfig(**section). -/
structure GraphKwargs where
  min_node_degree : Option Int := none
  max_cluster_size : Option Int := none
  prune_threshold : Option ℚ := none
  community_resolution : Option ℚ := none
  unknown_keys : List String := []
  deriving DecidableEq

/-- DatabaseConfig(**kwargs) as a Python dataclass call (src/config.py line 85):
an unexpected keyword argument raises TypeError; otherwise each absent key
takes the dataclass default. -/
def DatabaseConfig.fromKwargs (kw : DatabaseKwargs) : Except Unit DatabaseConfig :=
  if kw.unknown_keys = [] then
    .ok {
      project_id := kw.project_id.getD "acdei-system"
      credentials_path := kw.credentials_path.getD none
      collection_prefix := kw.collection_prefix.getD "acdei_"
      timeout_seconds := kw.timeout_seconds.getD 30
      max_retries := kw.max_retries.getD 3 }
  else .error ()

/-- ProcessingConfig(**kwargs) as a Python dataclass call (src/config.py line 87). -/
def ProcessingConfig.fromKwargs (kw : ProcessingKwargs) : Except Unit ProcessingConfig :=
  if kw.unknown_keys = [] then
    .ok {
      batch_size := kw.batch_size.getD 1000
      max_workers := kw.max_workers.getD 4
      chunk_size := kw.chunk_size.getD 100
      default_sample_size := kw.default_sample_size.getD 10000
      similarity_threshold := kw.similarity_threshold.getD (7 / 10)
      correlation_threshold := kw.correlation_threshold.getD (3 / 10) }
  else .error ()

/-- GraphConfig(**kwargs) as a Python dataclass call (src/config.py line 89). -/
def GraphConfig.fromKwargs (kw : GraphKwargs) : Except Unit GraphConfig :=
  if kw.unknown_keys = [] then
    .ok {
      min_node_degree := kw.min_node_degree.getD 2
      max_cluster_size := kw.max_cluster_size.getD 50
      prune_threshold := kw.prune_threshold.getD (1 / 10)
      community_resolution := kw.community_resolution.getD 1 }
  else .error ()

/-- The decoded top level of a configuration file: the three optional section
objects (a key absent from the file is `none`). -/
structure ConfigFile where
  database : Option DatabaseKwargs := none
  processing : Option ProcessingKwargs := none
  graph : Option GraphKwargs := none
  deriving DecidableEq

/-- What Path.exists / json.load observe at the configured path:
the file is missing, its JSON fails to decode, or it decodes to a
ConfigFile. -/
inductive FileContent
  | missing
  | invalidJson
  | parsed (f : ConfigFile)
  deriving DecidableEq

/-- The section-update sequence of ConfigManager._load_config on a decoded
file (src/config.py lines 84-89): the three dataclass constructions run in
order database, processing, graph, inside one try block, so the TypeError of
a malformed section is caught at the outer handler and the remaining sections
are never applied, while assignments already made survive. -/
def ConfigManager.applySections (init : ConfigBundle) (f : ConfigFile) : ConfigBundle :=
  match (match f.database with
               | none => Except.ok init.db_config
               | some kw => DatabaseConfig.fromKwargs kw) with
  | .error _ => init
  | .ok d =>
    let b1 : ConfigBundle := { init with db_config := d }
    match (match f.processing with
           | none => Except.ok b1.proc_config
           | some kw => ProcessingConfig.fromKwargs kw) with
    | .error _ => b1
    | .ok p =>
      let b2 : ConfigBundle := { b1 with proc_config := p }
      match (match f.graph with
             | none => Except.ok b2.graph_config
             | some kw => GraphConfig.fromKwargs kw) with
      | .error _ => b2
      | .ok g => { b2 with graph_config := g }

/-- ConfigManager._load_config (src/config.py lines 75-99): a missing file and
a JSON decode failure both keep the current (default) bundle; a decoded file
has its present sections applied in order until the first TypeError. -/
def ConfigManager.load_config (init : ConfigBundle) (c : FileContent) : ConfigBundle :=
  match c with
  | .missing => init
  | .invalidJson => init
  | .parsed f => ConfigManager.applySections init f

/-- ConfigManager.save_config (src/config.py lines 118-134): serializes every
field of the three sections verbatim into the file format read by
_load_config. -/
def ConfigManager.save_config (b : ConfigBundle) : ConfigFile :=
  { database := some {
      project_id := some b.db_config.project_id
      credentials_path := some b.db_config.credentials_path
      collection_prefix := some b.db_config.collection_prefix
      timeout_seconds := some b.db_config.timeout_seconds
      max_retries := some b.db_config.max_retries }
    processing := some {
      batch_size := some b.proc_config.batch_size
      max_workers := some b.proc_config.max_workers
      chunk_size := some b.proc_config.chunk_size
      default_sample_size := some b.proc_config.default_sample_size
      similarity_threshold := some b.proc_config.similarity_threshold
      correlation_threshold := some b.proc_config.correlation_threshold }
    graph := some {
      min_node_degree := some b.graph_config.min_node_degree
      max_cluster_size := some b.graph_config.max_cluster_size
      prune_threshold := some b.graph_config.prune_threshold
      community_resolution := some b.graph_config.community_resolution } }

/-- ConfigManager.__init__ (src/config.py lines 58-73): start from the
documented defaults, load overrides from the file, then validate; a
validation failure propagates out of construction. -/
def ConfigManager.construct (c : FileContent) : Except String ConfigBundle :=
  let b := ConfigManager.load_config defaultBundle c
  match ConfigManager.validate_configs b with
  | .ok _ => .ok b
  | .error e => .error e

lemma validate_defaults : ConfigManager.validate_configs defaultBundle = .ok () := by
  norm_num [ConfigManager.validate_configs, defaultBundle]

/-- C7: for every bundle that passes validation, saving it and loading the
written file back (starting, as __init__ does, from the defaults) reproduces
the identical bundle. -/
theorem save_then_load_round_trip (b : ConfigBundle)
    (h : ConfigManager.validate_configs b = .ok ()) :
    ConfigManager.load_config defaultBundle
      (.parsed (ConfigManager.save_config b)) = b := rfl

/-- Witness for C7 at the default bundle. -/
theorem save_then_load_round_trip_witness :
    ConfigManager.validate_configs defaultBundle = .ok () ∧
    ConfigManager.load_config defaultBundle
      (.parsed (ConfigManager.save_config defaultBundle)) = defaultBundle :=
  ⟨validate_defaults, save_then_load_round_trip defaultBundle validate_defaults⟩

lemma applySections_db_of_db_none (init : ConfigBundle) (fp : Option ProcessingKwargs)
    (fg : Option GraphKwargs) :
    (ConfigManager.applySections init ⟨none, fp, fg⟩).db_config = init.db_config := by
  unfold ConfigManager.applySections
  cases fp with
  | none =>
    cases fg with
    | none => rfl
    | some gkw => rcases hg : GraphConfig.fromKwargs gkw with e | g <;> simp [hg]
  | some pkw =>
    rcases hp : ProcessingConfig.fromKwargs pkw with e | p
    · simp [hp]
    · cases fg with
      | none => simp [hp]
      | some gkw =>
          rcases hg : GraphConfig.fromKwargs gkw with e | g <;> simp [hp, hg]

lemma applySections_proc_of_proc_none (init : ConfigBundle) (fd : Option DatabaseKwargs)
    (fg : Option GraphKwargs) :
    (ConfigManager.applySections init ⟨fd, none, fg⟩).proc_config = init.proc_config := by
  unfold ConfigManager.applySections
  cases fd with
  | none =>
    cases fg with
    | none => rfl
    | some gkw => rcases hg : GraphConfig.fromKwargs gkw with e | g <;> simp [hg]
  | some dkw =>
    rcases hd : DatabaseConfig.fromKwargs dkw with e | d
    · simp [hd]
    · cases fg with
      | none => simp [hd]
      | some gkw =>
          rcases hg : GraphConfig.fromKwargs gkw with e | g <;> simp [hd, hg]

lemma applySections_graph_of_graph_none (init : ConfigBundle) (fd : Option DatabaseKwargs)
    (fp : Option ProcessingKwargs) :
    (ConfigManager.applySections init ⟨fd, fp, none⟩).graph_config = init.graph_config := by
  unfold ConfigManager.applySections
  cases fd with
  | none =>
    cases fp with
    | none => rfl
    | some pkw => rcases hp : ProcessingConfig.fromKwargs pkw with e | p <;> simp [hp]
  | some dkw =>
    rcases hd : DatabaseConfig.fromKwargs dkw with e | d
    · simp [hd]
    · cases fp with
      | none => simp [hd]
      | some pkw =>
          rcases hp : ProcessingConfig.fromKwargs pkw with e | p <;> simp [hd, hp]

/-- C8: loading a file whose section is omitted leaves that section at the
documented defaults, whatever the other sections hold; and for every field of
every section, loading a file that sets only that field yields that field's
value with every other field of the bundle at its default. -/
theorem omitted_section_defaults_and_single_field_merge :
    (∀ f : ConfigFile, f.database = none →
      (ConfigManager.load_config defaultBundle (.parsed f)).db_config = {}) ∧
    (∀ f : ConfigFile, f.processing = none →
      (ConfigManager.load_config defaultBundle (.parsed f)).proc_config = {}) ∧
    (∀ f : ConfigFile, f.graph = none →
      (ConfigManager.load_config defaultBundle (.parsed f)).graph_config = {}) ∧
    (∀ v, ConfigManager.load_config defaultBundle
        (.parsed { database := some { project_id := some v } }) =
      { db_config := { project_id := v } }) ∧
    (∀ v, ConfigManager.load_config defaultBundle
        (.parsed { database := some { credentials_path := some v } }) =
      { db_config := { credentials_path := v } }) ∧
    (∀ v, ConfigManager.load_config defaultBundle
        (.parsed { database := some { collection_prefix := some v } }) =
      { db_config := { collection_prefix := v } }) ∧
    (∀ v, ConfigManager.load_config defaultBundle
        (.parsed { database := some { timeout_seconds := some v } }) =
      { db_config := { timeout_seconds := v } }) ∧
    (∀ v, ConfigManager.load_config defaultBundle
        (.parsed { database := some { max_retries := some v } }) =
      { db_config := { max_retries := v } }) ∧
    (∀ v, ConfigManager.load_config defaultBundle
        (.parsed { processing := some { batch_size := some v } }) =
      { proc_config := { batch_size := v } }) ∧
    (∀ v, ConfigManager.load_config defaultBundle
        (.parsed { processing := some { max_workers := some v } }) =
      { proc_config := { max_workers := v } }) ∧
    (∀ v, ConfigManager.load_config defaultBundle
        (.parsed { processing := some { chunk_size := some v } }) =
      { proc_config := { chunk_size := v } }) ∧
    (∀ v, ConfigManager.load_config defaultBundle
        (.parsed { processing := some { default_sample_size := some v } }) =
      { proc_config := { default_sample_size := v } }) ∧
    (∀ v, ConfigManager.load_config defaultBundle
        (.parsed { processing := some { similarity_threshold := some v } }) =
      { proc_config := { similarity_threshold := v } }) ∧
    (∀ v, ConfigManager.load_config defaultBundle
        (.parsed { processing := some { correlation_threshold := some v } }) =
      { proc_config := { correlation_threshold := v } }) ∧
    (∀ v, ConfigManager.load_config defaultBundle
        (.parsed { graph := some { min_node_degree := some v } }) =
      { graph_config := { min_node_degree := v } }) ∧
    (∀ v, ConfigManager.load_config defaultBundle
        (.parsed { graph := some { max_cluster_size := some v } }) =
      { graph_config := { max_cluster_size := v } }) ∧
    (∀ v, ConfigManager.load_config defaultBundle
        (.parsed { graph := some { prune_threshold := some v } }) =
      { graph_config := { prune_threshold := v } }) ∧
    (∀ v, ConfigManager.load_config defaultBundle
        (.parsed { graph := some { community_resolution := some v } }) =
      { graph_config := { community_resolution := v } }) := by
  refine ⟨?_, ?_, ?_, fun v => rfl, fun v => rfl, fun v => rfl, fun v => rfl, fun v => rfl,
    fun v => rfl, fun v => rfl, fun v => rfl, fun v => rfl, fun v => rfl, fun v => rfl,
    fun v => rfl, fun v => rfl, fun v => rfl, fun v => rfl⟩
  · rintro ⟨fd, fp, fg⟩ h
    simp only [ConfigFile.database] at h
    subst h
    exact applySections_db_of_db_none defaultBundle fp fg
  · rintro ⟨fd, fp, fg⟩ h
    simp only [ConfigFile.processing] at h
    subst h
    exact applySections_proc_of_proc_none defaultBundle fd fg
  · rintro ⟨fd, fp, fg⟩ h
    simp only [ConfigFile.graph] at h
    subst h
    exact applySections_graph_of_graph_none defaultBundle fd fp

/-- Witness for C8: the omitted-section clauses at a file that omits all
three sections. -/
theorem omitted_section_defaults_witness :
    (ConfigManager.load_config defaultBundle (.parsed {})).db_config = {} ∧
    (ConfigManager.load_config defaultBundle (.parsed {})).proc_config = {} ∧
    (ConfigManager.load_config defaultBundle (.parsed {})).graph_config = {} :=
  ⟨omitted_section_defaults_and_single_field_merge.1 {} rfl,
   omitted_section_defaults_and_single_field_merge.2.1 {} rfl,
   omitted_section_defaults_and_single_field_merge.2.2.1 {} rfl⟩

/-- A file whose first section (database) is malformed by an unexpected extra
key while its graph section is well-formed and sets min_node_degree to 7. -/
def malformedDbFile : ConfigFile :=
  { database := some { unknown_keys := ["bogus_key"] }
    graph := some { min_node_degree := some 7 } }

/-- C9 counterexample: with the database section malformed (extra key) and the
graph section present and well-formed, loading leaves graph at its default
min_node_degree 2 instead of applying the file's 7 — the well-formed later
section is not applied. -/
theorem malformed_db_section_blocks_graph_section :
    DatabaseConfig.fromKwargs { unknown_keys := ["bogus_key"] } = .error () ∧
    GraphConfig.fromKwargs { min_node_degree := some 7 } =
      .ok { min_node_degree := 7 } ∧
    (ConfigManager.load_config defaultBundle
      (.parsed malformedDbFile)).graph_config.min_node_degree = 2 ∧
    ¬ (ConfigManager.load_config defaultBundle
      (.parsed malformedDbFile)).graph_config.min_node_degree = 7 :=
  ⟨rfl, rfl, rfl, by decide⟩

/-- C9 amended: a TypeError in one section's dataclass construction is caught
(load is not fatal), sections before the malformed one keep the values applied
from the file, and the malformed section together with every section after it
retains its defaults. -/
theorem load_stops_at_first_malformed_section :
    (∀ f : ConfigFile, ∀ kw, f.database = some kw →
       DatabaseConfig.fromKwargs kw = .error () →
       ConfigManager.load_config defaultBundle (.parsed f) = defaultBundle) ∧
    (∀ f : ConfigFile, ∀ dkw pkw d, f.database = some dkw →
       DatabaseConfig.fromKwargs dkw = .ok d →
       f.processing = some pkw → ProcessingConfig.fromKwargs pkw = .error () →
       ConfigManager.load_config defaultBundle (.parsed f) = { db_config := d }) ∧
    (∀ f : ConfigFile, ∀ dkw pkw gkw d p, f.database = some dkw →
       DatabaseConfig.fromKwargs dkw = .ok d →
       f.processing = some pkw → ProcessingConfig.fromKwargs pkw = .ok p →
       f.graph = some gkw → GraphConfig.fromKwargs gkw = .error () →
       ConfigManager.load_config defaultBundle (.parsed f) =
         { db_config := d, proc_config := p }) := by
  refine ⟨?_, ?_, ?_⟩
  · rintro ⟨fd, fp, fg⟩ kw h hkw
    simp only [ConfigFile.database] at h
    subst h
    simp [ConfigManager.load_config, ConfigManager.applySections, hkw]
  · rintro ⟨fd, fp, fg⟩ dkw pkw d hd hdkw hp hpkw
    simp only [ConfigFile.database] at hd
    simp only [ConfigFile.processing] at hp
    subst hd
    subst hp
    simp only [ConfigManager.load_config, ConfigManager.applySections, hdkw, hpkw]
    rfl
  · rintro ⟨fd, fp, fg⟩ dkw pkw gkw d p hd hdkw hp hpkw hg hgkw
    simp only [ConfigFile.database] at hd
    simp only [ConfigFile.processing] at hp
    simp only [ConfigFile.graph] at hg
    subst hd
    subst hp
    subst hg
    simp only [ConfigManager.load_config, ConfigManager.applySections, hdkw, hpkw, hgkw]
    rfl

/-- Witness for the amended C9: the first clause applied to the concrete file
with a malformed database section. -/
theorem load_stops_at_first_malformed_section_witness :
    ConfigManager.load_config defaultBundle (.parsed malformedDbFile) = defaultBundle :=
  load_stops_at_first_malformed_section.1 malformedDbFile
    { unknown_keys := ["bogus_key"] } rfl rfl

/-- C10: constructing the ConfigManager with no file at the configured path
succeeds and returns the defaults: the documented default sections satisfy
every validation invariant, so the validation-failure branch is not taken. -/
theorem construct_without_file_succeeds :
    ConfigManager.construct .missing = .ok defaultBundle ∧
    ConfigManager.validate_configs defaultBundle = .ok () := by
  refine ⟨?_, validate_defaults⟩
  simp [ConfigManager.construct, ConfigManager.load_config, validate_defaults]

/-- An opaque structured credential blob: the key-value document produced by
decoding a credential source. -/
abbrev Cred := List (String × String)

/-- A raw credential blob as stored in the environment variable or in a file:
it either fails JSON decoding or decodes to a credential document. -/
inductive CredDoc
  | malformed
  | valid (c : Cred)
  deriving DecidableEq

/-- json.loads / json.load on a raw blob: the decoded document, or `none` when
decoding raises. -/
def parseDoc : CredDoc → Option Cred
  | .malformed => none
  | .valid c => some c

/-- What the file system shows at a credentials path: no file, an OS error on
open / read, or a readable raw blob. -/
inductive FileState
  | absent
  | ioError
  | readable (d : CredDoc)
  deriving DecidableEq

/-- The log lines emitted by get_firebase_credentials (src/config.py lines
144, 154, 156). -/
inductive LogEvent
  | invalidEnvJson
  | fileReadError
  | noCredentialsFound
  deriving DecidableEq

/-- ConfigManager.get_firebase_credentials (src/config.py lines 136-157):
try the FIREBASE_CREDENTIALS_JSON environment variable first (a decode error
is logged and falls through); then the file at credentials_path (a missing
file is skipped, a decode or OS error is logged and falls through); finally
log that no credentials were found and return none.  The environment and file
system are passed explicitly; an unset or empty environment variable is
`none`, an unset or empty credentials_path is `none`. -/
def ConfigManager.get_firebase_credentials (envVar : Option CredDoc)
    (credentials_path : Option String) (fs : String → FileState) :
    Option Cred × List LogEvent :=
  let fileStep : Option Cred × List LogEvent :=
    match credentials_path with
    | none => (none, [.noCredentialsFound])
    | some p =>
      match fs p with
      | .absent => (none, [.noCredentialsFound])
      | .ioError => (none, [.fileReadError, .noCredentialsFound])
      | .readable d =>
        match parseDoc d with
        | some c => (some c, [])
        | none => (none, [.fileReadError, .noCredentialsFound])
  match envVar with
  | none => fileStep
  | some d =>
    match parseDoc d with
    | some c => (some c, [])
    | none => (fileStep.1, .invalidEnvJson :: fileStep.2)

/-- The fixed priority chain of credential sources as the spec lists it
(§4.1 ResolveCredentials): first the environment blob, then the file at
credentials_path, each contributing material only when it parses. -/
def credentialSourceChain (envVar : Option CredDoc) (credentials_path : Option String)
    (fs : String → FileState) : List (Option Cred) :=
  [ envVar.bind parseDoc,
    match credentials_path with
    | none => none
    | some p =>
      match fs p with
      | .readable d => parseDoc d
      | _ => none ]

/-- First source of a chain that yielded material, in chain order. -/
def firstSome : List (Option Cred) → Option Cred
  | [] => none
  | some c :: _ => some c
  | none :: rest => firstSome rest

/-- C2: whenever the environment variable holds a blob that parses, credential
resolution returns that environment blob (and logs nothing), regardless of the
configured credentials path and of whatever the file system holds there. -/
theorem env_credentials_take_priority (c : Cred) (credentials_path : Option String)
    (fs : String → FileState) :
    ConfigManager.get_firebase_credentials (some (CredDoc.valid c)) credentials_path fs =
      (some c, []) := rfl

/-- C3: when the environment blob fails to parse and the credentials path
names a readable file that parses, resolution logs the environment parse error
and returns the file's material. -/
theorem env_parse_error_falls_through_to_file (c : Cred) (p : String)
    (fs : String → FileState) (hfs : fs p = FileState.readable (CredDoc.valid c)) :
    ConfigManager.get_firebase_credentials (some CredDoc.malformed) (some p) fs =
      (some c, [LogEvent.invalidEnvJson]) := by
  simp [ConfigManager.get_firebase_credentials, hfs, parseDoc]

/-- Witness for C3 at a concrete environment, path and file system. -/
theorem env_parse_error_falls_through_to_file_witness :
    ConfigManager.get_firebase_credentials (some CredDoc.malformed) (some "creds.json")
      (fun _ => FileState.readable (CredDoc.valid [("type", "service_account")])) =
      (some [("type", "service_account")], [LogEvent.invalidEnvJson]) :=
  env_parse_error_falls_through_to_file [("type", "service_account")] "creds.json"
    (fun _ => FileState.readable (CredDoc.valid [("type", "service_account")])) rfl

/-- C4: credential resolution returns exactly the first successfully parsed
blob of the priority chain, and none when no source yields material; being a
total function into an Option, it raises for no state of the environment or
file system (an unconfigured source, a missing file, a decode failure and an
OS read error all fall through). -/
theorem credentials_resolution_is_first_parsed (envVar : Option CredDoc)
    (credentials_path : Option String) (fs : String → FileState) :
    (ConfigManager.get_firebase_credentials envVar credentials_path fs).1 =
      firstSome (credentialSourceChain envVar credentials_path fs) := by
  rcases envVar with _ | d
  · rcases credentials_path with _ | p
    · rfl
    · rcases hp : fs p with _ | _ | d
      · simp [ConfigManager.get_firebase_credentials, credentialSourceChain, firstSome, hp]
      · simp [ConfigManager.get_firebase_credentials, credentialSourceChain, firstSome, hp]
      · rcases d with _ | c
        · simp [ConfigManager.get_firebase_credentials, credentialSourceChain, firstSome,
            parseDoc, hp]
        · simp [ConfigManager.get_firebase_credentials, credentialSourceChain, firstSome,
            parseDoc, hp]
  · rcases d with _ | c
    · rcases credentials_path with _ | p
      · rfl
      · rcases hp : fs p with _ | _ | d
        · simp [ConfigManager.get_firebase_credentials, credentialSourceChain, firstSome,
            parseDoc, hp]
        · simp [ConfigManager.get_firebase_credentials, credentialSourceChain, firstSome,
            parseDoc, hp]
        · rcases d with _ | c
          · simp [ConfigManager.get_firebase_credentials, credentialSourceChain, firstSome,
              parseDoc, hp]
          · simp [ConfigManager.get_firebase_credentials, credentialSourceChain, firstSome,
              parseDoc, hp]
    · rfl

/-- The class-level state seen by FirebaseManager.__new__: the _instance class
variable and a counter allocating identities for fresh Python objects
(src/firebase_setup.py lines 22-29). -/
structure NewState where
  next_obj : Nat
  inst_var : Option Nat
  deriving DecidableEq

/-- FirebaseManager.__new__ (src/firebase_setup.py lines 26-29): when
_instance is unset, allocate a fresh object and store it in _instance; always
return _instance. -/
def FirebaseManager.new (s : NewState) : Nat × NewState :=
  match s.inst_var with
  | some i => (i, s)
  | none => (s.next_obj, { next_obj := s.next_obj + 1, inst_var := some s.next_obj })

/-- Construction repeated n further times after an initial call, returning the
last constructed object: calls FirebaseManager() n + 1 times in sequence. -/
def FirebaseManager.newRepeat : Nat → NewState → Nat × NewState
  | 0, s => FirebaseManager.new s
  | n + 1, s => FirebaseManager.newRepeat n (FirebaseManager.new s).2

/-- Modelled from the spec: src/firebase_setup.py is truncated inside
FirebaseManager.__init__, so the connection-manager state past __new__ (the
cached _db handle and session opening) is not in the sources.  Per spec §4.2,
the state is the cached connection handle (absent until the first successful
GetHandle), a counter allocating handle identities, and the count of
underlying authenticated sessions opened so far. -/
structure ConnState where
  db_cached : Option Nat
  next_handle : Nat
  sessions_opened : Nat
  deriving DecidableEq

/-- Modelled from the spec: GetHandle (spec §4.2), absent from the truncated
src/firebase_setup.py.  When a handle is cached it is returned with no
further work; otherwise an initialization attempt runs, abstracted by `ok`
(credential resolution yielded material and client construction succeeded):
on success the new handle is cached and one session is opened, on failure no
handle is produced and the state is unchanged, so a later call re-attempts. -/
def FirebaseManager.getHandle (ok : Bool) (s : ConnState) : Option Nat × ConnState :=
  match s.db_cached with
  | some h => (some h, s)
  | none =>
    if ok then
      (some s.next_handle,
        { db_cached := some s.next_handle, next_handle := s.next_handle + 1,
          sessions_opened := s.sessions_opened + 1 })
    else (none, s)

/-- A sequence of GetHandle calls, each with the success of its underlying
initialization attempt, run from a starting state. -/
def FirebaseManager.runHandles : List Bool → ConnState → ConnState
  | [], s => s
  | ok :: rest, s => FirebaseManager.runHandles rest (FirebaseManager.getHandle ok s).2

/-- The connection-manager state at process start: nothing cached, no session
opened. -/
def initConnState : ConnState := ⟨none, 0, 0⟩

lemma runHandles_sessions_bound (oks : List Bool) (s : ConnState)
    (h0 : s.db_cached = none → s.sessions_opened = 0)
    (h1 : s.sessions_opened ≤ 1) :
    (FirebaseManager.runHandles oks s).sessions_opened ≤ 1 := by
  induction oks generalizing s with
  | nil => exact h1
  | cons ok rest ih =>
    rcases hc : s.db_cached with _ | h
    · rcases ok with _ | _
      · simp only [FirebaseManager.runHandles, FirebaseManager.getHandle, hc, if_neg,
          Bool.false_eq_true, not_false_iff]
        exact ih s h0 h1
      · simp only [FirebaseManager.runHandles, FirebaseManager.getHandle, hc, if_pos]
        refine ih _ (fun hnone => by simp at hnone) ?_
        simp [h0 hc]
    · simp only [FirebaseManager.runHandles, FirebaseManager.getHandle, hc]
      exact ih s h0 h1

/-- C1: FirebaseManager.__new__ caches the first constructed instance, so any
number of further constructions returns that same instance and leaves the
class state unchanged; and (modelled from the spec, the file being truncated)
once GetHandle has cached a handle every call returns that same handle with no
state change, and any sequence of GetHandle calls from process start opens at
most one underlying authenticated session. -/
theorem firebase_manager_singleton :
    (∀ n : Nat, ∀ s : NewState, ∀ i : Nat, ∀ s' : NewState,
       FirebaseManager.new s = (i, s') →
       FirebaseManager.newRepeat n s' = (i, s')) ∧
    (∀ s : ConnState, ∀ h : Nat, ∀ ok : Bool, s.db_cached = some h →
       FirebaseManager.getHandle ok s = (some h, s)) ∧
    (∀ oks : List Bool,
       (FirebaseManager.runHandles oks initConnState).sessions_opened ≤ 1) := by
  refine ⟨?_, ?_, ?_⟩
  · have hfix : ∀ s i s', FirebaseManager.new s = (i, s') →
        FirebaseManager.new s' = (i, s') := by
      intro s i s' hnew
      rcases hc : s.inst_var with _ | j
      · simp only [FirebaseManager.new, hc] at hnew
        obtain ⟨rfl, rfl⟩ := Prod.mk.injEq .. ▸ hnew
        simp [FirebaseManager.new]
      · simp only [FirebaseManager.new, hc] at hnew
        obtain ⟨rfl, rfl⟩ := Prod.mk.injEq .. ▸ hnew
        simp [FirebaseManager.new, hc]
    intro n
    induction n with
    | zero => exact fun s i s' hnew => hfix s i s' hnew
    | succ m ih =>
      intro s i s' hnew
      have h2 := hfix s i s' hnew
      simpa [FirebaseManager.newRepeat, h2] using ih s' i s' h2
  · intro s h ok hc
    simp [FirebaseManager.getHandle, hc]
  · intro oks
    exact runHandles_sessions_bound oks initConnState (fun _ => rfl) (by simp [initConnState])

/-- Witness for C1: two further constructions after the first still return
object 0 and leave the class state fixed; a GetHandle call on a Ready state
returns the cached handle 4 unchanged; three GetHandle calls from process
start open at most one session. -/
theorem firebase_manager_singleton_witness :
    FirebaseManager.newRepeat 2 ⟨1, some 0⟩ = (0, ⟨1, some 0⟩) ∧
    FirebaseManager.getHandle false ⟨some 4, 5, 1⟩ = (some 4, ⟨some 4, 5, 1⟩) ∧
    (FirebaseManager.runHandles [false, true, true] initConnState).sessions_opened ≤ 1 :=
  ⟨firebase_manager_singleton.1 2 ⟨0, none⟩ 0 ⟨1, some 0⟩ rfl,
   firebase_manager_singleton.2.1 ⟨some 4, 5, 1⟩ 4 false rfl,
   firebase_manager_singleton.2.2 [false, true, true]⟩
